import Mathlib

/-!
Shallow embedding of the real-time dashboard's core:
the `useRealTimeData` coordinator hook (state, refresh, start/stop/toggle,
clear, updateDataset), its localStorage persistence adapter
(`persistData` / `loadPersistedData`), and the CSV export formatter
(`exportToCSV` from exportHelpers.js).

JavaScript objects are modelled as ordered association lists of
field-name/value pairs (`Obj`); field order models JS insertion order,
which `Object.keys` preserves.  Time is epoch milliseconds as `Int`.
The repeating interval timer is modelled explicitly: a set of active
timer ids plus the coordinator's `intervalRef` handle.  Randomness and
generator failure are supplied by an environment (`GenEnv`): each of the
four generators either returns a record list or throws.
-/

/-- A JavaScript primitive value as it appears in dashboard records:
either a string or a number. -/
inductive JsVal where
  | str (s : String)
  | num (n : Int)
deriving DecidableEq, Repr

/-- A JavaScript object: ordered list of field-name/value pairs. -/
abbrev Obj : Type := List (String × JsVal)

/-- Field access `row[header]`: first binding of the key, if present. -/
def getField (row : Obj) (k : String) : Option JsVal :=
  (row.find? (fun p => p.fst == k)).map Prod.snd

/-- JS `String.prototype.includes` with a single-character needle. -/
def jsIncludes (s : String) (c : Char) : Bool :=
  s.data.contains c

/-- JS `value.replace(/"/g, '""')`: every quote character doubled. -/
def doubleQuotes (s : String) : String :=
  String.mk ((s.data.map (fun ch => if ch = '"' then ['"', '"'] else [ch])).flatten)

/-- One CSV cell, from exportHelpers.js `exportToCSV`'s inner map: a
string value containing a comma or quote is wrapped in quotes with
embedded quotes doubled; any other value is rendered bare (a number by
its decimal text, a missing field as the empty string, as `Array.join`
renders `undefined`). -/
def csvEscape (v : Option JsVal) : String :=
  match v with
  | some (JsVal.str s) =>
      if jsIncludes s ',' || jsIncludes s '"' then
        "\"" ++ doubleQuotes s ++ "\""
      else s
  | some (JsVal.num n) => toString n
  | none => ""

/-- `exportToCSV` from exportHelpers.js: `none` when the record list is
empty (the JS logs an error and returns without output); otherwise the
header line is the first record's keys comma-joined, followed by one
comma-joined line per record, all newline-joined. -/
def exportToCSV (data : List Obj) : Option String :=
  match data with
  | [] => none
  | first :: _ =>
    let headers := first.map Prod.fst
    let csvContent := String.intercalate "\n"
      ((String.intercalate "," headers) ::
        data.map (fun row =>
          String.intercalate "," (headers.map (fun h => csvEscape (getField row h)))))
    some csvContent

/-- Claim C4: delimited-text export. Empty input produces no output;
otherwise the first line is the first record's field names in that
record's field order joined by commas, followed by one line per record
whose cells are escaped by `csvEscape` (string values containing a comma
or quote wrapped in quotes with quotes doubled, all other values bare);
and the concrete example `[[a:1, b:"x,y"], [a:2, b:"z"]]` yields header
`a,b` and rows `1,"x,y"` and `2,z`. -/
theorem exportToCSV_spec :
    exportToCSV [] = none ∧
    (∀ (first : Obj) (rest : List Obj),
      exportToCSV (first :: rest) =
        some (String.intercalate "\n"
          ((String.intercalate "," (first.map Prod.fst)) ::
            (first :: rest).map (fun row =>
              String.intercalate ","
                ((first.map Prod.fst).map (fun h => csvEscape (getField row h))))))) ∧
    exportToCSV
        [[("a", JsVal.num 1), ("b", JsVal.str "x,y")],
         [("a", JsVal.num 2), ("b", JsVal.str "z")]] =
      some "a,b\n1,\"x,y\"\n2,z" := by
  refine ⟨rfl, fun first rest => rfl, by decide⟩

/-- The JSON object written to the `dashboardData` localStorage slot by
`persistData`.  Fields are optional because `loadPersistedData` reads a
parsed JSON value whose fields may be absent (`data.sales || []`,
`new Date(data.lastUpdated)`); `persistData` always writes all of them. -/
structure PersistedData where
  sales : Option (List Obj)
  traffic : Option (List Obj)
  products : Option (List Obj)
  kpis : Option (List Obj)
  lastUpdated : Option Int
deriving DecidableEq, Repr

/-- Contents of the `dashboardData` storage slot: either a parseable
JSON object or malformed text on which `JSON.parse` throws. -/
inductive Stored where
  | valid (d : PersistedData)
  | malformed
deriving DecidableEq, Repr

/-- The state owned by the `useRealTimeData` hook: the four data
sequences, the metadata state variables, the timer handle
(`intervalRef`), the liveness flag (`mountedRef`), the captured
`enablePersistence` option, plus the ambient world the hook touches:
the set of live interval-timer ids (`activeTimers`, with `nextTimerId`
the next id `setInterval` hands out) and the localStorage slot. -/
structure CoordState where
  salesData : List Obj
  trafficData : List Obj
  productData : List Obj
  kpiData : List Obj
  isRealTime : Bool
  lastUpdated : Int
  updateCount : Nat
  isLoading : Bool
  error : Option String
  intervalRef : Option Nat
  activeTimers : List Nat
  nextTimerId : Nat
  mounted : Bool
  enablePersistence : Bool
  slot : Option Stored
deriving DecidableEq, Repr

/-- Environment for one `generateAllData` call: the outcome of each of
the four generator calls (`Except.error` models a thrown exception), the
current clock (`new Date()`), and whether `localStorage.setItem`
succeeds (`false` models a quota error). -/
structure GenEnv where
  sales : Except Unit (List Obj)
  traffic : Except Unit (List Obj)
  products : Except Unit (List Obj)
  kpis : Except Unit (List Obj)
  now : Int
  storeOk : Bool

/-- Sequencing of the four generator calls inside `generateAllData`'s
try block: `some` of all four results, or `none` if any call throws. -/
def genResults (env : GenEnv) : Option (List Obj × List Obj × List Obj × List Obj) :=
  match env.sales, env.traffic, env.products, env.kpis with
  | Except.ok s, Except.ok t, Except.ok p, Except.ok k => some (s, t, p, k)
  | _, _, _, _ => none

/-- `persistData` from useRealTimeData.js: `localStorage.setItem` of the
serialized snapshot; a storage failure is caught and logged, leaving the
slot unchanged. -/
def persistData (storeOk : Bool) (d : PersistedData) (st : CoordState) : CoordState :=
  if storeOk then { st with slot := some (Stored.valid d) } else st

/-- `generateAllData` from useRealTimeData.js.  Sets loading=true and
error=null; runs the four generators; on success and if still mounted,
replaces the four sequences, sets lastUpdated to now, increments
updateCount, and persists when `enablePersistence`; if any generator
throws, the catch block sets the generic error message; the finally
block clears loading if still mounted. -/
def generateAllData (env : GenEnv) (st : CoordState) : CoordState :=
  let st1 := { st with isLoading := true, error := none }
  let st2 :=
    match genResults env with
    | some (s, t, p, k) =>
      if st1.mounted then
        let st' := { st1 with
          salesData := s, trafficData := t, productData := p, kpiData := k,
          lastUpdated := env.now, updateCount := st1.updateCount + 1 }
        if st'.enablePersistence then
          persistData env.storeOk
            { sales := some s, traffic := some t, products := some p,
              kpis := some k, lastUpdated := some env.now } st'
        else st'
      else st1
    | none => { st1 with error := some "Failed to generate dashboard data" }
  if st2.mounted then { st2 with isLoading := false } else st2

/-- `refreshData` from useRealTimeData.js: just calls `generateAllData`. -/
def refreshData (env : GenEnv) (st : CoordState) : CoordState :=
  generateAllData env st

/-- `loadPersistedData` from useRealTimeData.js: reads the slot; if
present and parseable and its timestamp is less than one hour
(3600000 ms) before `now` and the hook is still mounted, adopts the
stored sequences (missing ones as `[]`) and timestamp and returns true;
otherwise leaves the state unchanged and returns false (a parse failure
is caught and logged). -/
def loadPersistedData (now : Int) (st : CoordState) : CoordState × Bool :=
  match st.slot with
  | none => (st, false)
  | some Stored.malformed => (st, false)
  | some (Stored.valid d) =>
    match d.lastUpdated with
    | none => (st, false)
    | some lu =>
      if now - lu < 3600000 ∧ st.mounted = true then
        ({ st with
            salesData := d.sales.getD [],
            trafficData := d.traffic.getD [],
            productData := d.products.getD [],
            kpiData := d.kpis.getD [],
            lastUpdated := lu }, true)
      else (st, false)

/-- `startRealTime` from useRealTimeData.js: if `intervalRef` holds a
timer, `clearInterval` it; set isRealTime=true; `setInterval` a fresh
timer whose id goes into `intervalRef`. -/
def startRealTime (st : CoordState) : CoordState :=
  let st1 :=
    match st.intervalRef with
    | some id => { st with activeTimers := st.activeTimers.erase id }
    | none => st
  let st2 := { st1 with isRealTime := true }
  { st2 with
      intervalRef := some st2.nextTimerId,
      activeTimers := st2.nextTimerId :: st2.activeTimers,
      nextTimerId := st2.nextTimerId + 1 }

/-- `stopRealTime` from useRealTimeData.js: `clearInterval` the timer if
present, null the handle, set isRealTime=false. -/
def stopRealTime (st : CoordState) : CoordState :=
  let st1 :=
    match st.intervalRef with
    | some id => { st with activeTimers := st.activeTimers.erase id, intervalRef := none }
    | none => st
  { st1 with isRealTime := false }

/-- `toggleRealTime` from useRealTimeData.js. -/
def toggleRealTime (st : CoordState) : CoordState :=
  if st.isRealTime then stopRealTime st else startRealTime st

/-- The callback installed by `setInterval` in `startRealTime`: calls
`generateAllData` only if `mountedRef.current` is still true. -/
def timerTick (env : GenEnv) (st : CoordState) : CoordState :=
  if st.mounted then generateAllData env st else st

/-- The mount effect's cleanup in useRealTimeData.js: sets
`mountedRef.current = false` and `clearInterval`s any pending timer
(without nulling the handle or touching `isRealTime`). -/
def teardown (st : CoordState) : CoordState :=
  let st1 := { st with mounted := false }
  match st1.intervalRef with
  | some id => { st1 with activeTimers := st1.activeTimers.erase id }
  | none => st1

/-- `clearData` from useRealTimeData.js: empties the four sequences,
resets updateCount, and — only when `enablePersistence` —
`localStorage.removeItem`s the slot, catching and logging a storage
failure (`removeOk = false`). -/
def clearData (removeOk : Bool) (st : CoordState) : CoordState :=
  let st1 := { st with
    salesData := [], trafficData := [], productData := [],
    kpiData := [], updateCount := 0 }
  if st1.enablePersistence then
    if removeOk then { st1 with slot := none } else st1
  else st1

/-- `updateDataset` from useRealTimeData.js: the switch replaces the
named sequence (default case only logs a warning), and then
`setLastUpdated(new Date())` runs unconditionally. -/
def updateDataset (now : Int) (datasetName : String) (newData : List Obj)
    (st : CoordState) : CoordState :=
  let st1 :=
    if datasetName = "sales" then { st with salesData := newData }
    else if datasetName = "traffic" then { st with trafficData := newData }
    else if datasetName = "products" then { st with productData := newData }
    else if datasetName = "kpis" then { st with kpiData := newData }
    else st
  { st1 with lastUpdated := now }

/-- The hook's timer bookkeeping invariant: the live interval timers are
exactly the one `intervalRef` points at, if any. -/
def timerInv (st : CoordState) : Prop :=
  st.activeTimers = st.intervalRef.toList

/-- A concrete coordinator state used to instantiate the theorems. -/
def sampleState : CoordState where
  salesData := [[("month", JsVal.str "Jan"), ("revenue", JsVal.num 42000)]]
  trafficData := [[("time", JsVal.str "00:00"), ("visitors", JsVal.num 500)]]
  productData := [[("name", JsVal.str "Books"), ("value", JsVal.num 12)]]
  kpiData := [[("title", JsVal.str "Total Revenue"), ("value", JsVal.str "$245K")]]
  isRealTime := false
  lastUpdated := 0
  updateCount := 3
  isLoading := false
  error := none
  intervalRef := none
  activeTimers := []
  nextTimerId := 0
  mounted := true
  enablePersistence := true
  slot := none

/-- An environment in which the traffic generator throws and the other
three succeed. -/
def failEnv : GenEnv where
  sales := Except.ok [[("month", JsVal.str "Feb")]]
  traffic := Except.error ()
  products := Except.ok []
  kpis := Except.ok []
  now := 7
  storeOk := true

/-- Concrete generator outputs for the all-success environment. -/
def okSales : List Obj := [[("month", JsVal.str "Mar"), ("revenue", JsVal.num 50000)]]

/-- Concrete traffic output for the all-success environment. -/
def okTraffic : List Obj := [[("time", JsVal.str "01:00"), ("visitors", JsVal.num 800)]]

/-- Concrete product output for the all-success environment. -/
def okProducts : List Obj := [[("name", JsVal.str "Sports"), ("value", JsVal.num 30)]]

/-- Concrete KPI output for the all-success environment. -/
def okKpis : List Obj := [[("title", JsVal.str "Active Users"), ("value", JsVal.str "2.4K")]]

/-- An environment in which all four generators succeed. -/
def okEnv : GenEnv where
  sales := Except.ok okSales
  traffic := Except.ok okTraffic
  products := Except.ok okProducts
  kpis := Except.ok okKpis
  now := 9
  storeOk := true

/-- Helper: the fields `generateAllData` produces on a successful
generation while mounted. Shared by the refresh and tick theorems. -/
theorem generateAllData_ok_fields (env : GenEnv) (st : CoordState)
    (s t p k : List Obj) (hg : genResults env = some (s, t, p, k))
    (hm : st.mounted = true) :
    (generateAllData env st).salesData = s ∧
    (generateAllData env st).trafficData = t ∧
    (generateAllData env st).productData = p ∧
    (generateAllData env st).kpiData = k ∧
    (generateAllData env st).lastUpdated = env.now ∧
    (generateAllData env st).updateCount = st.updateCount + 1 ∧
    (generateAllData env st).isLoading = false ∧
    (generateAllData env st).error = none ∧
    (st.enablePersistence = true → env.storeOk = true →
      (generateAllData env st).slot =
        some (Stored.valid
          { sales := some s, traffic := some t, products := some p,
            kpis := some k, lastUpdated := some env.now })) := by
  cases hsp : st.enablePersistence <;> cases hso : env.storeOk <;>
    simp [generateAllData, hg, hm, persistData, hsp, hso]

/-- Claim C1: if any of the four generators fails during `refresh()`,
then after `refresh()` completes the updateCount and all four sequences
(sales, traffic, products, kpis) hold exactly their prior values, and
the error field is non-null. -/
theorem refresh_failure_preserves_state (env : GenEnv) (st : CoordState)
    (hfail : genResults env = none) :
    (refreshData env st).updateCount = st.updateCount ∧
    (refreshData env st).salesData = st.salesData ∧
    (refreshData env st).trafficData = st.trafficData ∧
    (refreshData env st).productData = st.productData ∧
    (refreshData env st).kpiData = st.kpiData ∧
    (refreshData env st).error ≠ none := by
  cases hm : st.mounted <;>
    simp [refreshData, generateAllData, hfail, hm]

/-- Witness for C1 at the concrete failing environment and state. -/
theorem refresh_failure_preserves_state_witness :
    genResults failEnv = none ∧
    ((refreshData failEnv sampleState).updateCount = sampleState.updateCount ∧
     (refreshData failEnv sampleState).salesData = sampleState.salesData ∧
     (refreshData failEnv sampleState).trafficData = sampleState.trafficData ∧
     (refreshData failEnv sampleState).productData = sampleState.productData ∧
     (refreshData failEnv sampleState).kpiData = sampleState.kpiData ∧
     (refreshData failEnv sampleState).error ≠ none) :=
  ⟨rfl, refresh_failure_preserves_state failEnv sampleState rfl⟩

/-- Claim C2: with the liveness flag set, a successful `refresh()`
replaces all four sequences with the freshly generated ones, sets
lastUpdated to the current time, increments updateCount by exactly 1,
writes the new snapshot through the persistence adapter when persistence
is enabled (and the storage write succeeds, the adapter swallowing
failures by contract), and clears the loading flag at the end. -/
theorem refresh_success_updates (env : GenEnv) (st : CoordState)
    (s t p k : List Obj) (hg : genResults env = some (s, t, p, k))
    (hm : st.mounted = true) :
    (refreshData env st).salesData = s ∧
    (refreshData env st).trafficData = t ∧
    (refreshData env st).productData = p ∧
    (refreshData env st).kpiData = k ∧
    (refreshData env st).lastUpdated = env.now ∧
    (refreshData env st).updateCount = st.updateCount + 1 ∧
    (refreshData env st).isLoading = false ∧
    (refreshData env st).error = none ∧
    (st.enablePersistence = true → env.storeOk = true →
      (refreshData env st).slot =
        some (Stored.valid
          { sales := some s, traffic := some t, products := some p,
            kpis := some k, lastUpdated := some env.now })) :=
  generateAllData_ok_fields env st s t p k hg hm

/-- Witness for C2 at the concrete all-success environment and state. -/
theorem refresh_success_updates_witness :
    genResults okEnv = some (okSales, okTraffic, okProducts, okKpis) ∧
    sampleState.mounted = true ∧
    ((refreshData okEnv sampleState).salesData = okSales ∧
     (refreshData okEnv sampleState).trafficData = okTraffic ∧
     (refreshData okEnv sampleState).productData = okProducts ∧
     (refreshData okEnv sampleState).kpiData = okKpis ∧
     (refreshData okEnv sampleState).lastUpdated = okEnv.now ∧
     (refreshData okEnv sampleState).updateCount = sampleState.updateCount + 1 ∧
     (refreshData okEnv sampleState).isLoading = false ∧
     (refreshData okEnv sampleState).error = none ∧
     (sampleState.enablePersistence = true → okEnv.storeOk = true →
       (refreshData okEnv sampleState).slot =
         some (Stored.valid
           { sales := some okSales, traffic := some okTraffic,
             products := some okProducts, kpis := some okKpis,
             lastUpdated := some okEnv.now }))) :=
  ⟨rfl, rfl,
    refresh_success_updates okEnv sampleState okSales okTraffic okProducts okKpis rfl rfl⟩

/-- Claim C3: round-trip — a snapshot saved through `persistData` is
returned by `loadPersistedData` (sequences and lastUpdated adopted)
when loaded within the one-hour staleness window while mounted; and
`loadPersistedData` reports not-found (false, state unchanged) when the
slot is absent, when it is malformed, and when the saved timestamp is
more than one hour in the past. -/
theorem persistence_roundtrip_and_staleness :
    (∀ (st : CoordState) (s t p k : List Obj) (saveT now : Int),
      st.mounted = true → now - saveT < 3600000 →
      loadPersistedData now
          (persistData true
            { sales := some s, traffic := some t, products := some p,
              kpis := some k, lastUpdated := some saveT } st) =
        ({ st with
            salesData := s, trafficData := t, productData := p, kpiData := k,
            lastUpdated := saveT,
            slot := some (Stored.valid
              { sales := some s, traffic := some t, products := some p,
                kpis := some k, lastUpdated := some saveT }) }, true)) ∧
    (∀ (st : CoordState) (now : Int), st.slot = none →
      loadPersistedData now st = (st, false)) ∧
    (∀ (st : CoordState) (now : Int), st.slot = some Stored.malformed →
      loadPersistedData now st = (st, false)) ∧
    (∀ (st : CoordState) (d : PersistedData) (lu now : Int),
      st.slot = some (Stored.valid d) → d.lastUpdated = some lu →
      now - lu > 3600000 →
      loadPersistedData now st = (st, false)) := by
  refine ⟨?_, ?_, ?_, ?_⟩
  · intro st s t p k saveT now hm hlt
    simp [persistData, loadPersistedData, hm, hlt]
  · intro st now hslot
    simp [loadPersistedData, hslot]
  · intro st now hslot
    simp [loadPersistedData, hslot]
  · intro st d lu now hslot hlu hgt
    have hnot : ¬ (now - lu < 3600000 ∧ st.mounted = true) :=
      fun hc => lt_asymm hgt hc.1
    simp [loadPersistedData, hslot, hlu, hnot]

/-- The persisted snapshot used by the persistence witnesses. -/
def savedSnap : PersistedData where
  sales := some okSales
  traffic := some okTraffic
  products := some okProducts
  kpis := some okKpis
  lastUpdated := some 2

/-- The state a fresh load after saving `savedSnap` should adopt. -/
def adoptedState : CoordState :=
  { sampleState with
      salesData := okSales, trafficData := okTraffic,
      productData := okProducts, kpiData := okKpis,
      lastUpdated := 2, slot := some (Stored.valid savedSnap) }

/-- A state whose storage slot holds unparseable text. -/
def malformedState : CoordState :=
  { sampleState with slot := some Stored.malformed }

/-- A state whose storage slot holds a snapshot saved at time 2. -/
def staleState : CoordState :=
  { sampleState with slot := some (Stored.valid savedSnap) }

/-- Witness for C3 at concrete snapshots, states and clocks. -/
theorem persistence_roundtrip_and_staleness_witness :
    sampleState.mounted = true ∧ (1000 : Int) - 2 < 3600000 ∧
    loadPersistedData 1000 (persistData true savedSnap sampleState) = (adoptedState, true) ∧
    sampleState.slot = none ∧
    loadPersistedData 1000 sampleState = (sampleState, false) ∧
    loadPersistedData 1000 malformedState = (malformedState, false) ∧
    (7200001 : Int) - 2 > 3600000 ∧
    loadPersistedData 7200001 staleState = (staleState, false) := by
  have h := persistence_roundtrip_and_staleness
  refine ⟨rfl, by decide, ?_, rfl, ?_, ?_, by decide, ?_⟩
  · exact h.1 sampleState okSales okTraffic okProducts okKpis 2 1000 rfl (by decide)
  · exact h.2.1 sampleState 1000 rfl
  · exact h.2.2.1 malformedState 1000 rfl
  · exact h.2.2.2 staleState savedSnap 2 7200001 rfl rfl (by decide)

/-- Claim C5: from any state satisfying the timer bookkeeping invariant,
two immediate `start()` calls leave exactly one active repeating timer:
the second start cancels the first timer (its id is no longer active)
before installing its own, whose id the handle holds. -/
theorem start_twice_single_timer (st : CoordState) (h : timerInv st) :
    (startRealTime (startRealTime st)).activeTimers.length = 1 ∧
    (startRealTime (startRealTime st)).activeTimers = [st.nextTimerId + 1] ∧
    (startRealTime (startRealTime st)).intervalRef = some (st.nextTimerId + 1) ∧
    st.nextTimerId ∉ (startRealTime (startRealTime st)).activeTimers ∧
    timerInv (startRealTime (startRealTime st)) := by
  unfold timerInv at h ⊢
  cases hi : st.intervalRef with
  | none =>
    rw [hi] at h
    simp at h
    simp [startRealTime, hi, h]
  | some id =>
    rw [hi] at h
    simp at h
    simp [startRealTime, hi, h]

/-- Witness for C5 at the concrete sample state. -/
theorem start_twice_single_timer_witness :
    timerInv sampleState ∧
    ((startRealTime (startRealTime sampleState)).activeTimers.length = 1 ∧
     (startRealTime (startRealTime sampleState)).activeTimers = [sampleState.nextTimerId + 1] ∧
     (startRealTime (startRealTime sampleState)).intervalRef = some (sampleState.nextTimerId + 1) ∧
     sampleState.nextTimerId ∉ (startRealTime (startRealTime sampleState)).activeTimers ∧
     timerInv (startRealTime (startRealTime sampleState))) :=
  ⟨rfl, start_twice_single_timer sampleState rfl⟩

/-- Claim C6: after teardown (liveness flag cleared, pending timer
cancelled), a late timer callback is a no-op: the state after the tick
is equal, field for field, to the state before it. -/
theorem late_tick_after_teardown_noop (env : GenEnv) (st : CoordState) :
    timerTick env (teardown st) = teardown st := by
  have hm : (teardown st).mounted = false := by
    cases hi : st.intervalRef <;> simp [teardown, hi]
  simp [timerTick, hm]

/-- Claim C7: `toggle()` is an involution on the active flag — two
calls restore its initial value — and each single call starts the timer
when turning the flag on (handle filled with the fresh timer id) and
stops it when turning the flag off (handle nulled). -/
theorem toggle_involution (st : CoordState) :
    (toggleRealTime (toggleRealTime st)).isRealTime = st.isRealTime ∧
    (st.isRealTime = false →
      (toggleRealTime st).isRealTime = true ∧
      (toggleRealTime st).intervalRef = some st.nextTimerId) ∧
    (st.isRealTime = true →
      (toggleRealTime st).isRealTime = false ∧
      (toggleRealTime st).intervalRef = none) := by
  cases h : st.isRealTime <;> cases hi : st.intervalRef <;>
    simp [toggleRealTime, startRealTime, stopRealTime, h, hi]

/-- Witness for C7 at the concrete sample state (initially inactive). -/
theorem toggle_involution_witness :
    (toggleRealTime (toggleRealTime sampleState)).isRealTime = sampleState.isRealTime ∧
    sampleState.isRealTime = false ∧
    (toggleRealTime sampleState).isRealTime = true ∧
    (toggleRealTime sampleState).intervalRef = some sampleState.nextTimerId :=
  ⟨(toggle_involution sampleState).1, rfl,
   ((toggle_involution sampleState).2.1 rfl).1,
   ((toggle_involution sampleState).2.1 rfl).2⟩

/-- Counterexample to C8 as stated: `updateDataset` with the
unrecognized name "bogus" at clock 5 changes `lastUpdated` (0 to 5),
because `setLastUpdated(new Date())` runs unconditionally after the
switch — so not every other state field is unchanged. -/
theorem updateDataset_bogus_changes_lastUpdated :
    (updateDataset 5 "bogus" [] sampleState).lastUpdated = 5 ∧
    sampleState.lastUpdated = 0 ∧
    (updateDataset 5 "bogus" [] sampleState).lastUpdated ≠ sampleState.lastUpdated :=
  ⟨rfl, rfl, by decide⟩

/-- Claim C8 (amended): `updateDataset` with a name outside
{sales, traffic, products, kpis} does not throw and leaves all four
sequences and every other state field unchanged except `lastUpdated`,
which is refreshed to the current time. -/
theorem updateDataset_unknown_only_touches_lastUpdated (now : Int) (name : String)
    (newData : List Obj) (st : CoordState)
    (h1 : name ≠ "sales") (h2 : name ≠ "traffic")
    (h3 : name ≠ "products") (h4 : name ≠ "kpis") :
    updateDataset now name newData st = { st with lastUpdated := now } := by
  simp [updateDataset, h1, h2, h3, h4]

/-- Witness for amended C8 at the concrete name "bogus". -/
theorem updateDataset_unknown_witness :
    ("bogus" ≠ "sales") ∧ ("bogus" ≠ "traffic") ∧
    ("bogus" ≠ "products") ∧ ("bogus" ≠ "kpis") ∧
    updateDataset 5 "bogus" [] sampleState = { sampleState with lastUpdated := 5 } :=
  ⟨by decide, by decide, by decide, by decide,
   updateDataset_unknown_only_touches_lastUpdated 5 "bogus" [] sampleState
     (by decide) (by decide) (by decide) (by decide)⟩

/-- A state with persistence disabled whose storage slot still holds a
snapshot (for example, one written in an earlier session). -/
def persistOffState : CoordState :=
  { sampleState with
      enablePersistence := false,
      slot := some (Stored.valid savedSnap) }

/-- Counterexample to C9 as stated: with persistence disabled, `clear()`
leaves an existing persisted snapshot in storage — removal only happens
when `enablePersistence` is true. -/
theorem clear_leaves_slot_when_persistence_disabled :
    persistOffState.slot = some (Stored.valid savedSnap) ∧
    (clearData true persistOffState).slot = some (Stored.valid savedSnap) ∧
    (clearData true persistOffState).slot ≠ none :=
  ⟨rfl, rfl, by decide⟩

/-- Claim C9 (amended): after `clear()` all four sequences are empty and
updateCount is 0; the persisted snapshot is removed from storage when
persistence is enabled (best-effort — a failed removal leaves the slot,
logged, not surfaced), and the slot is untouched when persistence is
disabled. -/
theorem clear_empties_and_removes (removeOk : Bool) (st : CoordState) :
    (clearData removeOk st).salesData = [] ∧
    (clearData removeOk st).trafficData = [] ∧
    (clearData removeOk st).productData = [] ∧
    (clearData removeOk st).kpiData = [] ∧
    (clearData removeOk st).updateCount = 0 ∧
    (st.enablePersistence = true → removeOk = true →
      (clearData removeOk st).slot = none) ∧
    (st.enablePersistence = false → (clearData removeOk st).slot = st.slot) := by
  cases hp : st.enablePersistence <;> cases removeOk <;> simp [clearData, hp]

/-- Witness for amended C9 at the concrete sample state. -/
theorem clear_empties_and_removes_witness :
    sampleState.enablePersistence = true ∧
    (clearData true sampleState).salesData = [] ∧
    (clearData true sampleState).trafficData = [] ∧
    (clearData true sampleState).productData = [] ∧
    (clearData true sampleState).kpiData = [] ∧
    (clearData true sampleState).updateCount = 0 ∧
    (clearData true sampleState).slot = none :=
  ⟨rfl, (clear_empties_and_removes true sampleState).1,
   (clear_empties_and_removes true sampleState).2.1,
   (clear_empties_and_removes true sampleState).2.2.1,
   (clear_empties_and_removes true sampleState).2.2.2.1,
   (clear_empties_and_removes true sampleState).2.2.2.2.1,
   (clear_empties_and_removes true sampleState).2.2.2.2.2.1 rfl rfl⟩

/-- Claim C10: `clear()` modifies only the four sequences, updateCount
and the persisted slot — the active flag, the timer handle, the live
timer set, lastUpdated, loading, error, liveness and the persistence
option are all unchanged — and, with real-time active and the hook
mounted, a successful next tick repopulates all four sequences. -/
theorem clear_frame (removeOk : Bool) (st : CoordState) :
    (clearData removeOk st).isRealTime = st.isRealTime ∧
    (clearData removeOk st).intervalRef = st.intervalRef ∧
    (clearData removeOk st).activeTimers = st.activeTimers ∧
    (clearData removeOk st).nextTimerId = st.nextTimerId ∧
    (clearData removeOk st).lastUpdated = st.lastUpdated ∧
    (clearData removeOk st).isLoading = st.isLoading ∧
    (clearData removeOk st).error = st.error ∧
    (clearData removeOk st).mounted = st.mounted ∧
    (clearData removeOk st).enablePersistence = st.enablePersistence ∧
    (∀ (env : GenEnv) (s t p k : List Obj),
      genResults env = some (s, t, p, k) → st.isRealTime = true →
      st.mounted = true →
      (timerTick env (clearData removeOk st)).salesData = s ∧
      (timerTick env (clearData removeOk st)).trafficData = t ∧
      (timerTick env (clearData removeOk st)).productData = p ∧
      (timerTick env (clearData removeOk st)).kpiData = k) := by
  have hfields :
      (clearData removeOk st).isRealTime = st.isRealTime ∧
      (clearData removeOk st).intervalRef = st.intervalRef ∧
      (clearData removeOk st).activeTimers = st.activeTimers ∧
      (clearData removeOk st).nextTimerId = st.nextTimerId ∧
      (clearData removeOk st).lastUpdated = st.lastUpdated ∧
      (clearData removeOk st).isLoading = st.isLoading ∧
      (clearData removeOk st).error = st.error ∧
      (clearData removeOk st).mounted = st.mounted ∧
      (clearData removeOk st).enablePersistence = st.enablePersistence := by
    cases hp : st.enablePersistence <;> cases removeOk <;> simp [clearData, hp]
  refine ⟨hfields.1, hfields.2.1, hfields.2.2.1, hfields.2.2.2.1,
    hfields.2.2.2.2.1, hfields.2.2.2.2.2.1, hfields.2.2.2.2.2.2.1,
    hfields.2.2.2.2.2.2.2.1, hfields.2.2.2.2.2.2.2.2, ?_⟩
  intro env s t p k hg hrt hmt
  have hm2 : (clearData removeOk st).mounted = true := by
    rw [hfields.2.2.2.2.2.2.2.1, hmt]
  have h := generateAllData_ok_fields env (clearData removeOk st) s t p k hg hm2
  have ht : timerTick env (clearData removeOk st) =
      generateAllData env (clearData removeOk st) := by
    simp [timerTick, hm2]
  rw [ht]
  exact ⟨h.1, h.2.1, h.2.2.1, h.2.2.2.1⟩

/-- A mounted state with real-time updates active and one live timer. -/
def liveState : CoordState :=
  { sampleState with
      isRealTime := true,
      intervalRef := some 0,
      activeTimers := [0],
      nextTimerId := 1 }

/-- Witness for C10 at the concrete live state. -/
theorem clear_frame_witness :
    genResults okEnv = some (okSales, okTraffic, okProducts, okKpis) ∧
    liveState.isRealTime = true ∧
    liveState.mounted = true ∧
    (clearData true liveState).isRealTime = liveState.isRealTime ∧
    (clearData true liveState).intervalRef = liveState.intervalRef ∧
    (clearData true liveState).activeTimers = liveState.activeTimers ∧
    (clearData true liveState).lastUpdated = liveState.lastUpdated ∧
    (clearData true liveState).isLoading = liveState.isLoading ∧
    (clearData true liveState).error = liveState.error ∧
    (timerTick okEnv (clearData true liveState)).salesData = okSales := by
  have h := clear_frame true liveState
  exact ⟨rfl, rfl, rfl, h.1, h.2.1, h.2.2.1, h.2.2.2.2.1, h.2.2.2.2.2.1,
    h.2.2.2.2.2.2.1,
    (h.2.2.2.2.2.2.2.2.2 okEnv okSales okTraffic okProducts okKpis rfl rfl rfl).1⟩
